import Mathlib

/-!
# Verification of the TenderChain notification / signup / project routes

Shallow embedding of:
* `lib/notifications` (createNotification, createBulkNotifications,
  getUnreadNotifications, markNotificationAsRead,
  updateNotificationPreferences, getInterestedBidders),
* `app/api/auth/signup/route.ts` (POST), and
* `app/api/projects/route.ts` (GET, POST).

Modelling conventions:
* MongoDB document ids are modelled as `String`s drawn from a fresh-id
  counter in the store state (`DB.nextId`); id comparison is on the string
  representation (the source always calls `.toString()` when passing ids).
* `Date.now` is an explicit `now : Nat` parameter; `new Date(...)` values
  are `Nat` timestamps.
* The external email transport (`sendEmail`, `sendVerificationEmail`) is a
  boolean oracle: `emailOk : String → Bool` gives the outcome of sending to
  a recipient address, and the signup route additionally takes the outcome
  of its verification-email send as a boolean.  A `false` outcome models
  the transport throwing.
* JS truthiness of an optional string field is `truthy : Option String →
  Bool` (absent or empty string is falsy).
* External helpers `hashPassword`, `generateVerificationToken` and
  `verifyToken` are parameters of the signup / project handlers.
* `parseFloat` / `toLocaleString` on the budget are not modelled (floating
  point); the budget is carried as its raw string, which no claim inspects.
-/

namespace TenderChain

/-- Case-insensitive substring matching: prefix test over char lists. -/
def isPrefixChars : List Char → List Char → Bool
  | [], _ => true
  | _ :: _, [] => false
  | a :: as, b :: bs => a == b && isPrefixChars as bs

/-- Predicate `hasSubChars needle hay`: does `needle` occur as a contiguous substring? -/
def hasSubChars (needle : List Char) : List Char → Bool
  | [] => needle.isEmpty
  | b :: bs => isPrefixChars needle (b :: bs) || hasSubChars needle bs

/-- JS `hay.toLowerCase().includes(needle.toLowerCase())`. -/
def containsIns (hay needle : String) : Bool :=
  hasSubChars (needle.toList.map Char.toLower) (hay.toList.map Char.toLower)

/-- JS truthiness of an optional string (absent or `""` is falsy). -/
def truthy (o : Option String) : Bool :=
  match o with
  | some s => !s.isEmpty
  | none => false

/-- The `notificationPreferences` triple; each flag may be absent. -/
structure Prefs where
  email : Option Bool
  inApp : Option Bool
  push : Option Bool
deriving Repr, DecidableEq

/-- A user document. -/
structure User where
  id : String
  email : String
  password : String
  companyName : String
  userType : String
  bidderType : Option String
  isVerified : Bool
  verificationToken : String
  verificationExpires : Nat
  notificationPreferences : Prefs
  createdAt : Nat
deriving Repr, DecidableEq

/-- Optional metadata on a notification. -/
structure Metadata where
  projectId : Option String
  bidId : Option String
  tenderId : Option String
  profileId : Option String
deriving Repr, DecidableEq

/-- A notification document. -/
structure Notification where
  id : String
  userId : String
  type : String
  title : String
  message : String
  read : Bool
  createdAt : Nat
  metadata : Option Metadata
deriving Repr, DecidableEq

/-- A project document (as built by `POST /api/projects`). -/
structure Project where
  id : String
  title : String
  description : String
  budget : String
  location : Option String
  deadline : String
  category : String
  duration : Option String
  specifications : Option String
  requirements : List String
  documents : List String
  hasFiles : Bool
  status : String
  bidCount : Nat
  progress : Nat
  tenderId : String
  createdBy : String
  tenderCompany : String
  createdAt : Nat
deriving Repr, DecidableEq

/-- The document store: users, notifications, projects, fresh-id counter. -/
structure DB where
  users : List User
  notifications : List Notification
  projects : List Project
  nextId : Nat
deriving Repr, DecidableEq

/-- Fresh document id from the counter (models Mongo ObjectId generation). -/
def freshId (n : Nat) : String := "oid" ++ toString n

/-- Result of `createNotification`: new store, the created record, and
whether the (uncaught) email send threw.  The record is inserted before the
email is attempted, so the store already holds it when the throw happens —
the function itself catches nothing; tolerance is the caller's job. -/
structure CreateNotificationResult where
  db : DB
  notif : Notification
  threw : Bool
deriving Repr

/-- Function `createNotification` from `lib/notifications`: insert one record with
`read := false` and the current timestamp, then look the recipient up and
send a templated email unless the address is missing or the `email`
preference is literally `false`. -/
def createNotification (db : DB) (emailOk : String → Bool) (now : Nat)
    (userId ntype title message : String) (metadata : Option Metadata) :
    CreateNotificationResult :=
  let notif : Notification :=
    { id := freshId db.nextId, userId := userId, type := ntype,
      title := title, message := message, read := false,
      createdAt := now, metadata := metadata }
  let db1 : DB :=
    { db with notifications := db.notifications ++ [notif],
              nextId := db.nextId + 1 }
  match db1.users.find? (fun u => u.id == userId) with
  | some u =>
      if !u.email.isEmpty && u.notificationPreferences.email != some false then
        if emailOk u.email then ⟨db1, notif, false⟩ else ⟨db1, notif, true⟩
      else ⟨db1, notif, false⟩
  | none => ⟨db1, notif, false⟩

/-- Function `getUnreadNotifications`: unread records of a user, newest first. -/
def getUnreadNotifications (db : DB) (userId : String) : List Notification :=
  (db.notifications.filter (fun n => n.userId == userId && n.read == false)).reverse

/-- Function `markNotificationAsRead`: Mongo `updateOne` sets `read := true` on the
first record whose id matches. -/
def markNotificationAsRead : List Notification → String → List Notification
  | [], _ => []
  | n :: ns, nid =>
      if n.id == nid then { n with read := true } :: ns
      else n :: markNotificationAsRead ns nid

/-- Function `updateNotificationPreferences`: Mongo `updateOne` with
`$set: { notificationPreferences: preferences }` replaces the stored
preference object of the first matching user wholesale. -/
def updateNotificationPreferences : List User → String → Prefs → List User
  | [], _, _ => []
  | u :: us, uid, p =>
      if u.id == uid then { u with notificationPreferences := p } :: us
      else u :: updateNotificationPreferences us uid p

/-- Records built by `createBulkNotifications` (`userIds.map(...)`),
with sequentially generated ids. -/
def mkBulkRecs (ntype title message : String) (metadata : Option Metadata)
    (now : Nat) : List String → Nat → List Notification
  | [], _ => []
  | uid :: rest, n =>
      { id := freshId n, userId := uid, type := ntype, title := title,
        message := message, read := false, createdAt := now,
        metadata := metadata }
        :: mkBulkRecs ntype title message metadata now rest (n + 1)

/-- The users queried for the email pass of `createBulkNotifications`:
`_id ∈ userIds` and `notificationPreferences.email ≠ false`. -/
def bulkEmailTargets (users : List User) (userIds : List String) : List User :=
  users.filter
    (fun u => userIds.contains u.id &&
              u.notificationPreferences.email != some false)

/-- The sequential per-recipient email loop of `createBulkNotifications`:
each send is wrapped in its own try/catch, so a failure is recorded and the
loop continues.  Returns (successful recipients, failed recipients). -/
def bulkSendLoop (emailOk : String → Bool) :
    List User → List String × List String
  | [] => ([], [])
  | u :: rest =>
      if !u.email.isEmpty then
        let r := bulkSendLoop emailOk rest
        if emailOk u.email then (u.email :: r.1, r.2)
        else (r.1, u.email :: r.2)
      else bulkSendLoop emailOk rest

/-- Result of `createBulkNotifications`: new store, inserted records, the
emails sent successfully and the ones whose send failed (caught+logged). -/
structure BulkResult where
  db : DB
  recs : List Notification
  sent : List String
  failed : List String
deriving Repr

/-- Function `createBulkNotifications`: one record per id via a single `insertMany`,
then a sequential email loop over the users with email enabled, each send
individually try/caught.  The function never throws. -/
def createBulkNotifications (db : DB) (emailOk : String → Bool) (now : Nat)
    (userIds : List String) (ntype title message : String)
    (metadata : Option Metadata) : BulkResult :=
  let recs := mkBulkRecs ntype title message metadata now userIds db.nextId
  let db1 : DB :=
    { db with notifications := db.notifications ++ recs,
              nextId := db.nextId + userIds.length }
  let targets := bulkEmailTargets db1.users userIds
  let sf := bulkSendLoop emailOk targets
  ⟨db1, recs, sf.1, sf.2⟩

/-- The static category → bidderType table of `getInterestedBidders`,
in source order. -/
def categoryToBidderType : List (String × List String) :=
  [("Construction", ["CONTRACTOR"]),
   ("Infrastructure", ["CONTRACTOR"]),
   ("Renovation", ["CONTRACTOR"]),
   ("Software Development", ["DEVELOPER"]),
   ("IT Services", ["DEVELOPER"]),
   ("Digital Solutions", ["DEVELOPER"]),
   ("Technology", ["DEVELOPER"]),
   ("Equipment", ["SUPPLIER"]),
   ("Materials", ["SUPPLIER"]),
   ("Goods", ["SUPPLIER"]),
   ("Supply Chain", ["SUPPLIER"]),
   ("Professional Services", ["CONSULTANT"]),
   ("Advisory", ["CONSULTANT"]),
   ("Design", ["CONSULTANT"]),
   ("Consulting", ["CONSULTANT"])]

/-- Keyword-matching pass of `getInterestedBidders`: accumulate the
bidderTypes of every table entry whose keyword occurs case-insensitively in
the category or (when present) the sector. -/
def matchedBidderTypes (tenderCategory : String) (tenderSector : Option String) :
    List String :=
  categoryToBidderType.foldl
    (fun acc kv =>
      if containsIns tenderCategory kv.1 ||
         (match tenderSector with
          | some s => containsIns s kv.1
          | none => false) then acc ++ kv.2 else acc) []

/-- The Mongo query predicate of `getInterestedBidders`:
`userType: 'bidder'`, `bidderType: { $in: relevant }`, `isVerified: true`. -/
def bidderMatches (relevant : List String) (u : User) : Bool :=
  u.userType == "bidder" &&
  u.bidderType.any (fun t => relevant.contains t) &&
  u.isVerified

/-- Function `getInterestedBidders`: keyword pass, then — if nothing matched — the
source's fallback list `['CONTRACTOR','DEVELOPER','SUPPLIER','CONSULTANT']`
(note: BUYER is absent, although the source comment says "notify all
bidders"), then the user query, returning ids. -/
def getInterestedBidders (users : List User) (tenderCategory : String)
    (tenderSector : Option String) : List String :=
  let m := matchedBidderTypes tenderCategory tenderSector
  let relevant :=
    if m.isEmpty then ["CONTRACTOR", "DEVELOPER", "SUPPLIER", "CONSULTANT"]
    else m
  (users.filter (bidderMatches relevant)).map User.id

/-! ## Signup route (`app/api/auth/signup/route.ts`) -/

/-- Request body of `POST /api/auth/signup`; each field may be absent. -/
structure SignupBody where
  email : Option String
  password : Option String
  companyName : Option String
  userType : Option String
  bidderType : Option String
deriving Repr, DecidableEq

/-- JSON response of the signup route. -/
inductive SignupResult where
  | err (status : Nat) (error : String)
  | ok (message : String) (emailSent : Bool) (warning : Option String)
deriving Repr, DecidableEq

/-- Whether a signup response is the 200 success shape. -/
def SignupResult.isOk : SignupResult → Bool
  | .ok _ _ _ => true
  | .err _ _ => false

/-- Valid bidder types, as listed in the signup route. -/
def validBidderTypes : List String :=
  ["CONTRACTOR", "DEVELOPER", "SUPPLIER", "CONSULTANT", "BUYER"]

/-- Success message when the verification email went out. -/
def signupOkMsg : String :=
  "User created successfully. Please check your email for verification."

/-- Success message when the verification email failed. -/
def signupWarnMsg : String :=
  "User created successfully, but there was an issue sending the verification email. You can request a new verification email from the login page."

/-- Handler `POST /api/auth/signup`.  `hash` models `hashPassword`, `vtoken` the
generated verification token, `verifySendOk` the outcome of
`sendVerificationEmail`, `emailOk` the transport oracle used by
`createNotification`.  Validation mirrors the source order; on the success
path the user is inserted, then — inside one try block — the verification
email is sent and, only after it succeeded, the SIGNUP_COMPLETE
notification is created; any throw lands in the catch that returns success
with a warning. -/
def signupPOST (db : DB) (hash : String → String) (vtoken : String)
    (verifySendOk : Bool) (emailOk : String → Bool) (now : Nat)
    (body : SignupBody) : DB × SignupResult :=
  if !(truthy body.email && truthy body.password &&
       truthy body.companyName && truthy body.userType) then
    (db, .err 400 "All fields are required")
  else if !(["tender", "bidder"].contains (body.userType.getD "")) then
    (db, .err 400 "Invalid user type")
  else if body.userType.getD "" == "bidder" && !truthy body.bidderType then
    (db, .err 400 "Bidder type is required for bidder accounts")
  else if body.userType.getD "" == "bidder" &&
          !(validBidderTypes.contains (body.bidderType.getD "")) then
    (db, .err 400 "Invalid bidder type")
  else if (body.password.getD "").length < 8 then
    (db, .err 400 "Password must be at least 8 characters")
  else if (db.users.find? (fun u => u.email == body.email.getD "")).isSome then
    (db, .err 400 "User already exists")
  else
    let uid := freshId db.nextId
    let newUser : User :=
      { id := uid, email := body.email.getD "",
        password := hash (body.password.getD ""),
        companyName := body.companyName.getD "",
        userType := body.userType.getD "",
        bidderType :=
          if body.userType.getD "" == "bidder" then body.bidderType else none,
        isVerified := false, verificationToken := vtoken,
        verificationExpires := now + 24 * 60 * 60 * 1000,
        notificationPreferences :=
          { email := some true, inApp := some true, push := some false },
        createdAt := now }
    let db1 : DB :=
      { db with users := db.users ++ [newUser], nextId := db.nextId + 1 }
    if verifySendOk then
      let r :=
        createNotification db1 emailOk now uid "SIGNUP_COMPLETE"
          "Welcome to TenderChain!"
          ("Welcome " ++ body.companyName.getD "" ++
           "! Your account has been created successfully. Please verify your email to get started.")
          (some { projectId := none, bidId := none, tenderId := none,
                  profileId := some uid })
      if r.threw then
        (r.db, .ok signupWarnMsg false (some "Email delivery failed"))
      else
        (r.db, .ok signupOkMsg true none)
    else
      (db1, .ok signupWarnMsg false (some "Email delivery failed"))

/-! ## Project routes (`app/api/projects/route.ts`) -/

/-- Decoded bearer-token payload (`verifyToken` result). -/
structure Payload where
  userId : String
  userType : String
  companyName : String
deriving Repr, DecidableEq

/-- Request body of `POST /api/projects`. -/
structure ProjectBody where
  title : Option String
  description : Option String
  budget : Option String
  location : Option String
  deadline : Option String
  category : Option String
  duration : Option String
  specifications : Option String
  requirements : Option (List String)
  documents : Option (List String)
  hasFiles : Option Bool
deriving Repr, DecidableEq

/-- JSON response of the project-creation route. -/
inductive ProjectPostResult where
  | err (status : Nat) (error : String)
  | ok (message : String) (projectId : String)
deriving Repr, DecidableEq

/-- Bearer-header handling of the project route: require the header, the
`Bearer ` scheme (`startsWith`), and a payload from `verifyToken` on
`substring(7)`. -/
def authPayload (authHeader : Option String)
    (verify : String → Option Payload) : Option Payload :=
  match authHeader with
  | none => none
  | some h =>
      if isPrefixChars "Bearer ".toList h.toList then
        verify (String.mk (h.toList.drop 7))
      else none

/-- Does the email send inside `createNotification` throw for recipient
`uid` in this user store?  (Recipient found, address non-empty, email
preference not literally `false`, transport fails.) -/
def emailSendFails (users : List User) (emailOk : String → Bool)
    (uid : String) : Bool :=
  match users.find? (fun u => u.id == uid) with
  | some u =>
      !u.email.isEmpty && u.notificationPreferences.email != some false &&
      !(emailOk u.email)
  | none => false

/-- Handler `POST /api/projects`: auth check, required-field check, insert the
project, notify the creator (NOT wrapped in its own try/catch — a throw
here reaches the outer catch and produces the 500 response), then the
bidder fan-out inside its own try/catch (`getInterestedBidders` +
`createBulkNotifications`, both total here), then the 200 response. -/
def projectPOST (db : DB) (authHeader : Option String)
    (verify : String → Option Payload) (emailOk : String → Bool) (now : Nat)
    (body : ProjectBody) : DB × ProjectPostResult :=
  match authPayload authHeader verify with
  | none => (db, .err 401 "Unauthorized")
  | some payload =>
    if payload.userType != "tender" then (db, .err 401 "Unauthorized")
    else if !(truthy body.title && truthy body.description &&
              truthy body.budget && truthy body.deadline &&
              truthy body.category) then
      (db, .err 400 "Missing required fields")
    else
      let pid := freshId db.nextId
      let newProject : Project :=
        { id := pid, title := body.title.getD "",
          description := body.description.getD "",
          budget := body.budget.getD "", location := body.location,
          deadline := body.deadline.getD "", category := body.category.getD "",
          duration := body.duration, specifications := body.specifications,
          requirements := body.requirements.getD [],
          documents := body.documents.getD [],
          hasFiles := body.hasFiles.getD false,
          status := "open", bidCount := 0, progress := 0,
          tenderId := payload.userId, createdBy := payload.userId,
          tenderCompany := payload.companyName, createdAt := now }
      let db1 : DB :=
        { db with projects := db.projects ++ [newProject],
                  nextId := db.nextId + 1 }
      let r :=
        createNotification db1 emailOk now payload.userId "PROJECT_CREATED"
          "Project Created Successfully"
          ("Your project \"" ++ newProject.title ++
           "\" has been created and is now open for bids.")
          (some { projectId := some pid, bidId := none, tenderId := none,
                  profileId := none })
      if r.threw then (r.db, .err 500 "Internal server error")
      else
        let interested :=
          getInterestedBidders r.db.users newProject.category
            body.specifications
        let db3 :=
          if !interested.isEmpty then
            (createBulkNotifications r.db emailOk now interested
              "NEW_TENDER_AVAILABLE" "New Tender Available"
              ("A new tender \"" ++ newProject.title ++ "\" in " ++
               newProject.category ++
               " category is now available. Budget: $" ++ newProject.budget)
              (some { projectId := some pid, bidId := none, tenderId := none,
                      profileId := none })).db
          else r.db
        (db3, .ok "Project created successfully" pid)

/-- Query parameters of `GET /api/projects`.  `limit` is the already-parsed
`parseInt(searchParams.get("limit") || "50")`. -/
structure GetParams where
  status : Option String
  category : Option String
  limit : Nat
  userType : Option String
  bidderType : Option String
deriving Repr, DecidableEq

/-- The GET route's bidder-role category table, in source order. -/
def categoryFilters : List (String × List String) :=
  [("CONTRACTOR",
    ["Construction", "Infrastructure", "Renovation", "Maintenance",
     "Civil Works"]),
   ("DEVELOPER",
    ["Software Development", "IT Services", "Digital Solutions",
     "Technology", "Web Development"]),
   ("SUPPLIER",
    ["Equipment", "Materials", "Goods", "Supply Chain", "Procurement"]),
   ("CONSULTANT",
    ["Professional Services", "Advisory", "Design", "Consulting",
     "Management"])]

/-- Lookup `categoryFilters[bidderType] || []`. -/
def lookupCats (bt : String) : List String :=
  match categoryFilters.find? (fun kv => kv.1 == bt) with
  | some kv => kv.2
  | none => []

/-- The Mongo filter built by `GET /api/projects`, as a predicate:
status (explicit, or the `$in: ["open","active"]` default when the param is
absent/empty), optional category equality, and the bidder-role `$or` of
exact membership and case-insensitive regex alternation over category and
specifications. -/
def matchesGetFilter (qp : GetParams) (p : Project) : Bool :=
  (match qp.status with
   | some s =>
       if s.isEmpty then p.status == "open" || p.status == "active"
       else p.status == s
   | none => p.status == "open" || p.status == "active") &&
  (match qp.category with
   | some c => if c.isEmpty then true else p.category == c
   | none => true) &&
  (if qp.userType == some "bidder" && truthy qp.bidderType then
     let cats := lookupCats (qp.bidderType.getD "")
     if !cats.isEmpty then
       cats.contains p.category ||
       cats.any (fun k => containsIns p.category k) ||
       cats.any (fun k =>
         match p.specifications with
         | some sp => containsIns sp k
         | none => false)
     else true
   else true)

/-- Insertion step of the `createdAt: -1` sort. -/
def insertByDate (p : Project) : List Project → List Project
  | [] => [p]
  | q :: qs =>
      if q.createdAt ≤ p.createdAt then p :: q :: qs
      else q :: insertByDate p qs

/-- Sort projects by `createdAt` descending (Mongo `sort({createdAt: -1})`). -/
def sortByDateDesc : List Project → List Project
  | [] => []
  | p :: ps => insertByDate p (sortByDateDesc ps)

/-- Handler `GET /api/projects`: filter, sort newest-first, take `limit`. -/
def projectsGET (db : DB) (qp : GetParams) : List Project :=
  (sortByDateDesc (db.projects.filter (matchesGetFilter qp))).take qp.limit

/-! ## Helper lemmas -/

/-- Lemma: `createNotification` in closed form: the record is always inserted (the
store is fixed before the email attempt), and the call throws exactly when
`emailSendFails` says so. -/
theorem createNotification_eq (db : DB) (emailOk : String → Bool) (now : Nat)
    (uid ntype title message : String) (md : Option Metadata) :
    createNotification db emailOk now uid ntype title message md =
      ⟨{ db with
           notifications := db.notifications ++
             [⟨freshId db.nextId, uid, ntype, title, message, false, now, md⟩],
           nextId := db.nextId + 1 },
       ⟨freshId db.nextId, uid, ntype, title, message, false, now, md⟩,
       emailSendFails db.users emailOk uid⟩ := by
  unfold createNotification emailSendFails
  cases h : db.users.find? (fun u => u.id == uid) with
  | none => simp [h]
  | some u =>
      simp only [h]
      by_cases h1 :
          (!u.email.isEmpty && u.notificationPreferences.email != some false)
            = true
      · by_cases h2 : emailOk u.email = true <;> simp [h1, h2]
      · simp [h1]

/-! ## C1 -/

/-- A verified bidder of type BUYER (a valid `bidderType` per the signup
route's `validBidderTypes`). -/
def buyerUser : User :=
  { id := "b1", email := "b@x.com", password := "h", companyName := "BuyCo",
    userType := "bidder", bidderType := some "BUYER", isVerified := true,
    verificationToken := "t", verificationExpires := 0,
    notificationPreferences :=
      { email := some true, inApp := some true, push := some false },
    createdAt := 0 }

/-- C1: the claim (and the source's own comment "If no specific match,
notify all bidders") says that when no keyword matches, every verified
bidder of any bidderType — including BUYER — is considered interested.
The code's fallback list is only `['CONTRACTOR','DEVELOPER','SUPPLIER',
'CONSULTANT']`: for the keyword-free category "Catering", a verified BUYER
bidder is NOT returned. -/
theorem C1_fallback_excludes_buyer :
    matchedBidderTypes "Catering" none = [] ∧
    buyerUser.userType = "bidder" ∧
    buyerUser.isVerified = true ∧
    buyerUser.bidderType = some "BUYER" ∧
    getInterestedBidders [buyerUser] "Catering" none = [] := by
  refine ⟨by decide, rfl, rfl, rfl, by decide⟩

/-! ## C7 -/

/-- C7: `markNotificationAsRead` is idempotent — running it twice on the
same id gives the same store as running it once — and after one run the
first record with that id (the one `updateOne` touches) has `read = true`.
The function is total, so no call raises an error. -/
theorem C7_markRead_idempotent (ns : List Notification) (nid : String) :
    markNotificationAsRead (markNotificationAsRead ns nid) nid
      = markNotificationAsRead ns nid ∧
    Option.all (fun n => n.read)
      ((markNotificationAsRead ns nid).find? (fun n => n.id == nid)) = true := by
  induction ns with
  | nil => exact ⟨rfl, rfl⟩
  | cons n ns ih =>
      by_cases h : (n.id == nid) = true
      · simp [markNotificationAsRead, h, List.find?]
      · simp [markNotificationAsRead, h, List.find?, ih.1, ih.2]

/-! ## C8 -/

/-- C8: `updateNotificationPreferences` overwrites wholesale — assuming
the store's ids are unique (Mongo `_id`s are), the updated user's stored
preference object is exactly the supplied one, so any flag the caller
omitted (`none`) is absent afterwards rather than retained. -/
theorem C8_prefs_overwrite_wholesale (users : List User) (uid : String)
    (p : Prefs) (hnd : (users.map User.id).Nodup) :
    ∀ u ∈ updateNotificationPreferences users uid p, u.id = uid →
      u.notificationPreferences = p := by
  induction users with
  | nil => intro u hu; simp [updateNotificationPreferences] at hu
  | cons v vs ih =>
      simp only [List.map_cons, List.nodup_cons] at hnd
      intro u hu hid
      by_cases h : (v.id == uid) = true
      · rw [updateNotificationPreferences, if_pos h] at hu
        rcases List.mem_cons.mp hu with rfl | hmem
        · rfl
        · exact absurd (List.mem_map.mpr ⟨u, hmem, by
            rw [hid]; exact (eq_of_beq h).symm⟩) hnd.1
      · rw [updateNotificationPreferences, if_neg h] at hu
        rcases List.mem_cons.mp hu with rfl | hmem
        · exact absurd (beq_iff_eq.mpr hid) h
        · exact ih hnd.2 u hmem hid

/-- C8 witness: two stored users; overwriting user `u1`'s preferences with
`{email := none, inApp := some false, push := none}` stores exactly that
object (the previously-set `email := some true` is not retained). -/
theorem C8_witness :
    (([⟨"u1", "a@x.com", "h", "A", "tender", none, true, "t", 0,
        ⟨some true, some true, some false⟩, 0⟩,
       ⟨"u2", "b@x.com", "h", "B", "tender", none, true, "t", 0,
        ⟨some true, some true, some false⟩, 0⟩] :
        List User).map User.id).Nodup ∧
    ∀ u ∈ updateNotificationPreferences
        [⟨"u1", "a@x.com", "h", "A", "tender", none, true, "t", 0,
          ⟨some true, some true, some false⟩, 0⟩,
         ⟨"u2", "b@x.com", "h", "B", "tender", none, true, "t", 0,
          ⟨some true, some true, some false⟩, 0⟩] "u1"
        ⟨none, some false, none⟩,
      u.id = "u1" → u.notificationPreferences = ⟨none, some false, none⟩ :=
  ⟨by decide, C8_prefs_overwrite_wholesale _ _ _ (by decide)⟩

/-! ## C5 -/

/-- The bulk records carry exactly the given ids, in order. -/
theorem mkBulkRecs_map_userId (ntype title message : String)
    (md : Option Metadata) (now : Nat) :
    ∀ (ids : List String) (n : Nat),
      (mkBulkRecs ntype title message md now ids n).map Notification.userId
        = ids := by
  intro ids
  induction ids with
  | nil => intro n; rfl
  | cons i is ih => intro n; simp [mkBulkRecs, ih]

/-- Every bulk record has `read = false`, the given timestamp, and the
shared type/title/message/metadata. -/
theorem mkBulkRecs_fields (ntype title message : String)
    (md : Option Metadata) (now : Nat) :
    ∀ (ids : List String) (n : Nat),
      ∀ x ∈ mkBulkRecs ntype title message md now ids n,
        x.read = false ∧ x.createdAt = now ∧ x.type = ntype ∧
        x.title = title ∧ x.message = message ∧ x.metadata = md := by
  intro ids
  induction ids with
  | nil => intro n x hx; simp [mkBulkRecs] at hx
  | cons i is ih =>
      intro n x hx
      rcases List.mem_cons.mp hx with rfl | hmem
      · exact ⟨rfl, rfl, rfl, rfl, rfl, rfl⟩
      · exact ih (n + 1) x hmem

/-- C5: `createBulkNotifications` performs a single batch insert appending
exactly one record per id (so `len(ids)` in total, carrying the ids in
order), each with `read = false`, the current timestamp, and identical
type, title, message and metadata. -/
theorem C5_bulk_insert_shape (db : DB) (emailOk : String → Bool) (now : Nat)
    (ids : List String) (ntype title message : String)
    (md : Option Metadata) :
    (createBulkNotifications db emailOk now ids ntype title message md).db.notifications
      = db.notifications ++
        (createBulkNotifications db emailOk now ids ntype title message md).recs ∧
    (createBulkNotifications db emailOk now ids ntype title message md).recs.map
        Notification.userId = ids ∧
    (createBulkNotifications db emailOk now ids ntype title message md).recs.length
      = ids.length ∧
    ∀ x ∈ (createBulkNotifications db emailOk now ids ntype title message md).recs,
      x.read = false ∧ x.createdAt = now ∧ x.type = ntype ∧
      x.title = title ∧ x.message = message ∧ x.metadata = md := by
  refine ⟨rfl, mkBulkRecs_map_userId ntype title message md now ids db.nextId,
          ?_, mkBulkRecs_fields ntype title message md now ids db.nextId⟩
  have h := congrArg List.length
    (mkBulkRecs_map_userId ntype title message md now ids db.nextId)
  simpa using h

/-! ## C6 -/

/-- The recipients the email pass of `createBulkNotifications` will
actually address: selected users (id in the list, email preference not
literally `false`) with a non-empty email. -/
def eligibleEmails (users : List User) (ids : List String) : List String :=
  ((bulkEmailTargets users ids).map User.email).filter (fun e => !e.isEmpty)

/-- The sequential per-recipient loop in closed form: the successful sends
are exactly the eligible addresses the transport accepts, the failures
exactly the ones it rejects — independent of each other. -/
theorem bulkSendLoop_eq (emailOk : String → Bool) :
    ∀ l : List User,
      bulkSendLoop emailOk l =
        (((l.map User.email).filter (fun e => !e.isEmpty)).filter
           (fun e => emailOk e),
         ((l.map User.email).filter (fun e => !e.isEmpty)).filter
           (fun e => !(emailOk e))) := by
  intro l
  induction l with
  | nil => rfl
  | cons u us ih =>
      by_cases h1 : u.email.isEmpty = true
      · simp [bulkSendLoop, h1, ih]
      · by_cases h2 : emailOk u.email = true <;>
          simp [bulkSendLoop, h1, h2, ih]

/-- C6: a failed email send to one recipient of `createBulkNotifications`
is caught individually (recorded in `failed`), does not prevent any other
recipient's send (`sent` is exactly the eligible addresses the transport
accepts, whatever it does elsewhere), never fails the overall call (the
function is total and always returns the updated store), and leaves the
batch-inserted records untouched. -/
theorem C6_bulk_email_isolation (db : DB) (emailOk : String → Bool)
    (now : Nat) (ids : List String) (ntype title message : String)
    (md : Option Metadata) :
    (createBulkNotifications db emailOk now ids ntype title message md).db.notifications
      = db.notifications ++
        (createBulkNotifications db emailOk now ids ntype title message md).recs ∧
    (createBulkNotifications db emailOk now ids ntype title message md).sent
      = (eligibleEmails db.users ids).filter (fun e => emailOk e) ∧
    (createBulkNotifications db emailOk now ids ntype title message md).failed
      = (eligibleEmails db.users ids).filter (fun e => !(emailOk e)) ∧
    ∀ e ∈ eligibleEmails db.users ids, emailOk e = true →
      e ∈ (createBulkNotifications db emailOk now ids ntype title message md).sent := by
  have hloop := bulkSendLoop_eq emailOk (bulkEmailTargets db.users ids)
  refine ⟨rfl, ?_, ?_, ?_⟩
  · show (bulkSendLoop emailOk (bulkEmailTargets db.users ids)).1 = _
    rw [hloop]
    rfl
  · show (bulkSendLoop emailOk (bulkEmailTargets db.users ids)).2 = _
    rw [hloop]
    rfl
  · intro e he hok
    show e ∈ (bulkSendLoop emailOk (bulkEmailTargets db.users ids)).1
    rw [hloop]
    exact List.mem_filter.mpr ⟨he, hok⟩

/-! ## C4 -/

/-- C4: when at least one keyword of the static table matches (the
accumulated list is non-empty), `getInterestedBidders` returns exactly the
ids of the stored users that are verified, of userType `bidder`, and whose
bidderType is among the accumulated mapped types. -/
theorem C4_matched_category_bidders (users : List User)
    (cat : String) (sector : Option String)
    (h : matchedBidderTypes cat sector ≠ []) :
    ∀ i, i ∈ getInterestedBidders users cat sector ↔
      ∃ u, u ∈ users ∧ u.id = i ∧ u.userType = "bidder" ∧
        u.isVerified = true ∧
        ∃ t, u.bidderType = some t ∧ t ∈ matchedBidderTypes cat sector := by
  intro i
  have hm : (matchedBidderTypes cat sector).isEmpty = false := by
    cases hx : matchedBidderTypes cat sector with
    | nil => exact absurd hx h
    | cons a l => rfl
  simp only [getInterestedBidders, hm, Bool.false_eq_true, if_false,
    List.mem_map, List.mem_filter, bidderMatches, Bool.and_eq_true,
    beq_iff_eq]
  constructor
  · rintro ⟨u, ⟨hu, ⟨hb, hany⟩, hv⟩, rfl⟩
    rcases hbt : u.bidderType with _ | t
    · rw [hbt] at hany; simp [Option.any] at hany
    · rw [hbt] at hany
      simp only [Option.any] at hany
      exact ⟨u, hu, rfl, hb, hv, t, hbt, List.elem_iff.mp hany⟩
  · rintro ⟨u, hu, rfl, hb, hv, t, hbt, ht⟩
    refine ⟨u, ⟨hu, ⟨hb, ?_⟩, hv⟩, rfl⟩
    rw [hbt]
    simp only [Option.any]
    exact List.elem_iff.mpr ht

/-- C4 witness: category "Construction Work" matches the keyword
"Construction"; with one verified CONTRACTOR bidder and one verified
DEVELOPER bidder stored, exactly the contractor's id is covered by the
characterization. -/
theorem C4_witness :
    matchedBidderTypes "Construction Work" none ≠ [] ∧
    ∀ i, i ∈ getInterestedBidders
        ([⟨"c1", "c@x.com", "h", "C", "bidder", some "CONTRACTOR", true, "t",
           0, ⟨some true, some true, some false⟩, 0⟩,
          ⟨"d1", "d@x.com", "h", "D", "bidder", some "DEVELOPER", true, "t",
           0, ⟨some true, some true, some false⟩, 0⟩] : List User)
        "Construction Work" none ↔
      ∃ u, u ∈
          ([⟨"c1", "c@x.com", "h", "C", "bidder", some "CONTRACTOR", true,
             "t", 0, ⟨some true, some true, some false⟩, 0⟩,
            ⟨"d1", "d@x.com", "h", "D", "bidder", some "DEVELOPER", true,
             "t", 0, ⟨some true, some true, some false⟩, 0⟩] : List User) ∧
        u.id = i ∧ u.userType = "bidder" ∧ u.isVerified = true ∧
        ∃ t, u.bidderType = some t ∧
          t ∈ matchedBidderTypes "Construction Work" none :=
  ⟨by decide, C4_matched_category_bidders _ _ _ (by decide)⟩

/-! ## Signup success shape (shared by C2 and C9) -/

/-- Lemma: `createNotification` never touches the user collection. -/
theorem createNotification_users (db : DB) (emailOk : String → Bool)
    (now : Nat) (uid ntype title message : String) (md : Option Metadata) :
    (createNotification db emailOk now uid ntype title message md).db.users
      = db.users := by
  rw [createNotification_eq]

/-- Lemma: `createNotification` appends exactly its one record, even on a throw
(the insert precedes the email attempt). -/
theorem createNotification_notifications (db : DB) (emailOk : String → Bool)
    (now : Nat) (uid ntype title message : String) (md : Option Metadata) :
    (createNotification db emailOk now uid ntype title message md).db.notifications
      = db.notifications ++
        [⟨freshId db.nextId, uid, ntype, title, message, false, now, md⟩] := by
  rw [createNotification_eq]

/-- Lemma: `createNotification` never touches the project collection. -/
theorem createNotification_projects (db : DB) (emailOk : String → Bool)
    (now : Nat) (uid ntype title message : String) (md : Option Metadata) :
    (createNotification db emailOk now uid ntype title message md).db.projects
      = db.projects := by
  rw [createNotification_eq]

/-- When `createNotification` throws (uncaught email failure). -/
theorem createNotification_threw (db : DB) (emailOk : String → Bool)
    (now : Nat) (uid ntype title message : String) (md : Option Metadata) :
    (createNotification db emailOk now uid ntype title message md).threw
      = emailSendFails db.users emailOk uid := by
  rw [createNotification_eq]

/-- Both branches of an `if` that differ only in the second pair component
share the first. -/
theorem ite_pair_fst {α β : Type} (c : Prop) [Decidable c] (d : α)
    (x y : β) : (if c then (d, x) else (d, y)).1 = d := by
  split <;> rfl

/-- The user record the signup route inserts on its success path (alias of
the record literal inside `signupPOST`, for stating lemmas). -/
def signupNewUser (db : DB) (hash : String → String) (vtoken : String)
    (now : Nat) (body : SignupBody) : User :=
  { id := freshId db.nextId, email := body.email.getD "",
    password := hash (body.password.getD ""),
    companyName := body.companyName.getD "",
    userType := body.userType.getD "",
    bidderType :=
      if body.userType.getD "" == "bidder" then body.bidderType else none,
    isVerified := false, verificationToken := vtoken,
    verificationExpires := now + 24 * 60 * 60 * 1000,
    notificationPreferences :=
      { email := some true, inApp := some true, push := some false },
    createdAt := now }

/-- Whenever the signup route answers with the 200 shape, every validation
passed and exactly one user was appended; the SIGNUP_COMPLETE notification
exists iff the verification email send succeeded (the `createNotification`
call sits after `sendVerificationEmail` inside the same try block). -/
theorem signupPOST_ok_spec (db : DB) (hash : String → String)
    (vtoken : String) (vOk : Bool) (eOk : String → Bool) (now : Nat)
    (body : SignupBody)
    (h : ((signupPOST db hash vtoken vOk eOk now body).2).isOk = true) :
    ∃ u : User,
      (signupPOST db hash vtoken vOk eOk now body).1.users
        = db.users ++ [u] ∧
      u.id = freshId db.nextId ∧
      u.userType = body.userType.getD "" ∧
      u.bidderType
        = (if body.userType.getD "" == "bidder" then body.bidderType
           else none) ∧
      ((body.userType.getD "" == "bidder") = true →
        truthy body.bidderType = true ∧
        validBidderTypes.contains (body.bidderType.getD "") = true) ∧
      (vOk = true →
        ∃ n, n ∈ (signupPOST db hash vtoken vOk eOk now body).1.notifications ∧
          n.userId = freshId db.nextId ∧ n.type = "SIGNUP_COMPLETE") ∧
      (vOk = false →
        (signupPOST db hash vtoken vOk eOk now body).1.notifications
          = db.notifications ∧
        (signupPOST db hash vtoken vOk eOk now body).2
          = .ok signupWarnMsg false (some "Email delivery failed")) := by
  unfold signupPOST at h ⊢
  split at h
  · simp [SignupResult.isOk] at h
  · rename_i hc1
    split at h
    · simp [SignupResult.isOk] at h
    · rename_i hc2
      split at h
      · simp [SignupResult.isOk] at h
      · rename_i hc3
        split at h
        · simp [SignupResult.isOk] at h
        · rename_i hc4
          split at h
          · simp [SignupResult.isOk] at h
          · rename_i hc5
            split at h
            · simp [SignupResult.isOk] at h
            · rename_i hc6
              rw [if_neg hc1, if_neg hc2, if_neg hc3, if_neg hc4,
                  if_neg hc5, if_neg hc6]
              have hE : (body.userType.getD "" == "bidder") = true →
                  truthy body.bidderType = true ∧
                  validBidderTypes.contains (body.bidderType.getD "")
                    = true := by
                intro hb
                constructor
                · cases htb : truthy body.bidderType with
                  | true => rfl
                  | false => exact absurd (by rw [hb, htb]; rfl) hc3
                · cases hcv :
                      validBidderTypes.contains (body.bidderType.getD "") with
                  | true => rfl
                  | false => exact absurd (by rw [hb, hcv]; rfl) hc4
              cases vOk with
              | false =>
                  exact ⟨signupNewUser db hash vtoken now body, rfl, rfl,
                    rfl, rfl, hE, fun hx => absurd hx (by simp),
                    fun _ => ⟨rfl, rfl⟩⟩
              | true =>
                  refine ⟨signupNewUser db hash vtoken now body, ?_, rfl,
                    rfl, rfl, hE, ?_, fun hx => absurd hx (by simp)⟩
                  · simp only [if_pos rfl, if_true, ite_pair_fst,
                      createNotification_users]
                    rfl
                  · intro _
                    simp only [if_pos rfl, if_true, ite_pair_fst,
                      createNotification_notifications]
                    exact ⟨_, List.mem_append_right _
                      (List.mem_singleton_self _), rfl, rfl⟩

/-- A truthy optional string is a non-empty `some`. -/
theorem truthy_iff (o : Option String) :
    truthy o = true ↔ ∃ s, o = some s ∧ s.isEmpty = false := by
  cases o <;> simp [truthy]

/-! ## C2 -/

/-- Empty store. -/
def db0 : DB := ⟨[], [], [], 0⟩

/-- A fully valid bidder signup body. -/
def bodyC2 : SignupBody :=
  { email := some "a@x.com", password := some "password1",
    companyName := some "Acme", userType := some "bidder",
    bidderType := some "CONTRACTOR" }

/-- C2 counterexample: on a valid signup whose verification email send
fails, the user record is persisted and the call reports success with a
warning — but NO notification at all is created (the SIGNUP_COMPLETE
`createNotification` call sits after `sendVerificationEmail` inside the
same try block and is skipped when the send throws), refuting "a
SIGNUP_COMPLETE notification is created ... regardless of whether the
verification email send succeeded or failed". -/
theorem C2_counterexample :
    (signupPOST db0 (fun p => p) "tok" false (fun _ => true) 0 bodyC2).1.notifications
      = [] ∧
    (signupPOST db0 (fun p => p) "tok" false (fun _ => true) 0 bodyC2).2
      = .ok signupWarnMsg false (some "Email delivery failed") ∧
    (signupPOST db0 (fun p => p) "tok" false (fun _ => true) 0 bodyC2).1.users.map
        User.id = [freshId 0] := by
  refine ⟨by decide, by decide, by decide⟩

/-- C2 (amended): for every successful signup, the SIGNUP_COMPLETE
notification for the new user's id is created iff the verification email
send succeeded; when that send fails, no notification is created, yet the
call still reports success with the warning "Email delivery failed" and
the user record still exists. -/
theorem C2_signup_notification_amended (db : DB) (hash : String → String)
    (vtoken : String) (vOk : Bool) (eOk : String → Bool) (now : Nat)
    (body : SignupBody)
    (h : ((signupPOST db hash vtoken vOk eOk now body).2).isOk = true) :
    (vOk = true →
      ∃ n, n ∈ (signupPOST db hash vtoken vOk eOk now body).1.notifications ∧
        n.userId = freshId db.nextId ∧ n.type = "SIGNUP_COMPLETE") ∧
    (vOk = false →
      (signupPOST db hash vtoken vOk eOk now body).1.notifications
        = db.notifications ∧
      (signupPOST db hash vtoken vOk eOk now body).2
        = .ok signupWarnMsg false (some "Email delivery failed") ∧
      ∃ u, u ∈ (signupPOST db hash vtoken vOk eOk now body).1.users ∧
        u.id = freshId db.nextId) := by
  obtain ⟨u, hu, hid, _, _, _, hT, hF⟩ :=
    signupPOST_ok_spec db hash vtoken vOk eOk now body h
  refine ⟨hT, fun hv => ⟨(hF hv).1, (hF hv).2, u, ?_, hid⟩⟩
  rw [hu]
  exact List.mem_append_right _ (List.mem_singleton_self _)

/-- C2 witness: the amended statement applied to a concrete failed-email
signup on an empty store. -/
theorem C2_amended_witness :
    ((signupPOST db0 (fun p => p) "tok" false (fun _ => true) 0 bodyC2).2).isOk
      = true ∧
    ((false : Bool) = true →
      ∃ n, n ∈ (signupPOST db0 (fun p => p) "tok" false (fun _ => true) 0
          bodyC2).1.notifications ∧
        n.userId = freshId db0.nextId ∧ n.type = "SIGNUP_COMPLETE") ∧
    ((false : Bool) = false →
      (signupPOST db0 (fun p => p) "tok" false (fun _ => true) 0
          bodyC2).1.notifications = db0.notifications ∧
      (signupPOST db0 (fun p => p) "tok" false (fun _ => true) 0 bodyC2).2
        = .ok signupWarnMsg false (some "Email delivery failed") ∧
      ∃ u, u ∈ (signupPOST db0 (fun p => p) "tok" false (fun _ => true) 0
          bodyC2).1.users ∧ u.id = freshId db0.nextId) :=
  ⟨by decide,
   C2_signup_notification_amended db0 (fun p => p) "tok" false
     (fun _ => true) 0 bodyC2 (by decide)⟩

/-! ## C9 -/

/-- C9: every user record persisted by a successful signup satisfies the
invariant "bidderType set iff userType = bidder": a bidder signup stores
the supplied enum bidderType, and a non-bidder (tender) signup stores no
bidderType even when the request body supplied one. -/
theorem C9_bidderType_invariant (db : DB) (hash : String → String)
    (vtoken : String) (vOk : Bool) (eOk : String → Bool) (now : Nat)
    (body : SignupBody)
    (h : ((signupPOST db hash vtoken vOk eOk now body).2).isOk = true) :
    ∃ u : User,
      (signupPOST db hash vtoken vOk eOk now body).1.users
        = db.users ++ [u] ∧
      (u.bidderType.isSome = true ↔ u.userType = "bidder") ∧
      (u.userType = "bidder" →
        u.bidderType = body.bidderType ∧
        ∃ t, body.bidderType = some t ∧ t ∈ validBidderTypes) ∧
      (u.userType ≠ "bidder" → u.bidderType = none) := by
  obtain ⟨u, hu, _, hut, hbt, hE, _, _⟩ :=
    signupPOST_ok_spec db hash vtoken vOk eOk now body h
  by_cases hb : (body.userType.getD "" == "bidder") = true
  · have hbeq : body.userType.getD "" = "bidder" := eq_of_beq hb
    obtain ⟨htr, hcv⟩ := hE hb
    obtain ⟨s, hs, _⟩ := (truthy_iff body.bidderType).mp htr
    refine ⟨u, hu, ?_, fun _ => ⟨?_, s, hs, ?_⟩, fun hne => absurd ?_ hne⟩
    · rw [hbt, if_pos hb, hut, hbeq, hs]
      simp
    · rw [hbt, if_pos hb]
    · rw [hs] at hcv
      simpa using List.elem_iff.mp hcv
    · rw [hut, hbeq]
  · have hbne : body.userType.getD "" ≠ "bidder" := by
      intro hx
      exact hb (beq_iff_eq.mpr hx)
    refine ⟨u, hu, ?_, ?_, fun _ => ?_⟩
    · rw [hbt, if_neg hb, hut]
      simp [hbne]
    · intro hbb
      exact absurd (hut.symm.trans hbb) hbne
    · rw [hbt, if_neg hb]

/-- A valid tender signup body that also (spuriously) supplies a
bidderType. -/
def bodyC9 : SignupBody :=
  { email := some "t@x.com", password := some "password1",
    companyName := some "TenderCo", userType := some "tender",
    bidderType := some "SUPPLIER" }

/-- C9 witness: a concrete tender signup that supplies a bidderType; the
invariant forces the stored bidderType to be `none`. -/
theorem C9_witness :
    ((signupPOST db0 (fun p => p) "tok" true (fun _ => true) 0 bodyC9).2).isOk
      = true ∧
    ∃ u : User,
      (signupPOST db0 (fun p => p) "tok" true (fun _ => true) 0
          bodyC9).1.users = db0.users ++ [u] ∧
      (u.bidderType.isSome = true ↔ u.userType = "bidder") ∧
      (u.userType = "bidder" →
        u.bidderType = bodyC9.bidderType ∧
        ∃ t, bodyC9.bidderType = some t ∧ t ∈ validBidderTypes) ∧
      (u.userType ≠ "bidder" → u.bidderType = none) :=
  ⟨by decide,
   C9_bidderType_invariant db0 (fun p => p) "tok" true (fun _ => true) 0
     bodyC9 (by decide)⟩

/-! ## C3 -/

/-- Lemma: `createBulkNotifications` never touches the project collection. -/
theorem createBulkNotifications_projects (db : DB) (emailOk : String → Bool)
    (now : Nat) (userIds : List String) (ntype title message : String)
    (md : Option Metadata) :
    (createBulkNotifications db emailOk now userIds ntype title message
      md).db.projects = db.projects := rfl

/-- An `if` between two stores with equal project collections. -/
theorem ite_DB_projects (c : Prop) [Decidable c] (a b : DB)
    (h1 : a.projects = b.projects) :
    (if c then a else b).projects = b.projects := by
  split
  · exact h1
  · rfl

/-- The project record the creation route inserts (alias of the record
literal inside `projectPOST`, for stating lemmas). -/
def projectNewRecord (db : DB) (payload : Payload) (now : Nat)
    (body : ProjectBody) : Project :=
  { id := freshId db.nextId, title := body.title.getD "",
    description := body.description.getD "",
    budget := body.budget.getD "", location := body.location,
    deadline := body.deadline.getD "", category := body.category.getD "",
    duration := body.duration, specifications := body.specifications,
    requirements := body.requirements.getD [],
    documents := body.documents.getD [],
    hasFiles := body.hasFiles.getD false,
    status := "open", bidCount := 0, progress := 0,
    tenderId := payload.userId, createdBy := payload.userId,
    tenderCompany := payload.companyName, createdAt := now }

/-- The tender user owning the C3 scenario. -/
def tenderUser : User :=
  { id := "t1", email := "t@x.com", password := "h", companyName := "Acme",
    userType := "tender", bidderType := none, isVerified := true,
    verificationToken := "v", verificationExpires := 0,
    notificationPreferences :=
      { email := some true, inApp := some true, push := some false },
    createdAt := 0 }

/-- Store for the C3 scenario. -/
def dbC3 : DB := ⟨[tenderUser], [], [], 5⟩

/-- Token verification for the C3 scenario. -/
def verifyC3 : String → Option Payload :=
  fun t => if t == "tok1" then some ⟨"t1", "tender", "Acme"⟩ else none

/-- The decoded payload of the C3 scenario. -/
def payloadC3 : Payload := ⟨"t1", "tender", "Acme"⟩

/-- A valid project-creation body. -/
def bodyC3 : ProjectBody :=
  { title := some "Bridge", description := some "desc",
    budget := some "1000", location := none,
    deadline := some "2025-01-01", category := some "Construction",
    duration := none, specifications := none, requirements := none,
    documents := none, hasFiles := none }

/-- C3 counterexample: a valid authorized creation request on a store
whose creator has email notifications enabled, with a failing email
transport.  The project record is persisted, yet the response is the 500
error — the creator notification is NOT inside its own try/catch, so its
email failure reaches the outer catch and fails the creation response,
refuting "a failure in any downstream notification or email step
(including the notification to the creator) never causes the creation
response to fail". -/
theorem C3_counterexample :
    (projectPOST dbC3 (some "Bearer tok1") verifyC3 (fun _ => false) 0
        bodyC3).2 = .err 500 "Internal server error" ∧
    (projectPOST dbC3 (some "Bearer tok1") verifyC3 (fun _ => false) 0
        bodyC3).1.projects.map Project.id = [freshId 5] ∧
    (projectPOST dbC3 (some "Bearer tok1") verifyC3 (fun _ => false) 0
        bodyC3).1.projects.map Project.status = ["open"] := by
  refine ⟨by decide, by decide, by decide⟩

/-- C3 (amended): for every authorized, validated creation request the
project record is always persisted, and downstream notification failures
in the bidder fan-out never change the success response (the fan-out sits
in its own try/catch and `createBulkNotifications` catches per-recipient
errors) — but a failure of the creator notification's email send does fail
the response: the route then returns the 500 error even though the project
remains stored. -/
theorem C3_creation_response_amended (db : DB) (authHeader : Option String)
    (verify : String → Option Payload) (emailOk : String → Bool) (now : Nat)
    (body : ProjectBody) (payload : Payload)
    (hauth : authPayload authHeader verify = some payload)
    (htype : payload.userType = "tender")
    (hfields : (truthy body.title && truthy body.description &&
        truthy body.budget && truthy body.deadline &&
        truthy body.category) = true) :
    (projectPOST db authHeader verify emailOk now body).1.projects
      = db.projects ++ [projectNewRecord db payload now body] ∧
    (projectNewRecord db payload now body).id = freshId db.nextId ∧
    (projectNewRecord db payload now body).status = "open" ∧
    (projectPOST db authHeader verify emailOk now body).2
      = (if emailSendFails db.users emailOk payload.userId then
           .err 500 "Internal server error"
         else .ok "Project created successfully" (freshId db.nextId)) := by
  unfold projectPOST
  rw [hauth]
  simp only [htype, bne_self_eq_false, Bool.false_eq_true, if_false,
    hfields, Bool.not_true]
  by_cases hf : emailSendFails db.users emailOk payload.userId = true
  · have ht : (createNotification
        { db with
            projects := db.projects ++ [projectNewRecord db payload now body],
            nextId := db.nextId + 1 } emailOk now payload.userId
        "PROJECT_CREATED" "Project Created Successfully"
        ("Your project \"" ++ body.title.getD "" ++
         "\" has been created and is now open for bids.")
        (some { projectId := some (freshId db.nextId), bidId := none,
                tenderId := none, profileId := none })).threw = true := by
      rw [createNotification_threw]
      exact hf
    simp only [projectNewRecord] at ht
    simp only [ht, if_true, createNotification_projects, hf]
    exact ⟨rfl, rfl, rfl, trivial⟩
  · have hfb : emailSendFails db.users emailOk payload.userId = false := by
      cases hx : emailSendFails db.users emailOk payload.userId with
      | false => rfl
      | true => exact absurd hx hf
    have ht : (createNotification
        { db with
            projects := db.projects ++ [projectNewRecord db payload now body],
            nextId := db.nextId + 1 } emailOk now payload.userId
        "PROJECT_CREATED" "Project Created Successfully"
        ("Your project \"" ++ body.title.getD "" ++
         "\" has been created and is now open for bids.")
        (some { projectId := some (freshId db.nextId), bidId := none,
                tenderId := none, profileId := none })).threw = false := by
      rw [createNotification_threw]
      exact hfb
    simp only [projectNewRecord] at ht
    simp only [ht, Bool.false_eq_true, if_false, hfb]
    refine ⟨?_, rfl, rfl, ?_⟩
    · rw [ite_DB_projects _ _ _
          (createBulkNotifications_projects _ _ _ _ _ _ _ _),
        createNotification_projects]
      rfl
    · trivial

/-- C3 witness: the amended statement applied to the concrete scenario
with a transport that accepts every send (success path). -/
theorem C3_amended_witness :
    authPayload (some "Bearer tok1") verifyC3 = some payloadC3 ∧
    payloadC3.userType = "tender" ∧
    (truthy bodyC3.title && truthy bodyC3.description &&
      truthy bodyC3.budget && truthy bodyC3.deadline &&
      truthy bodyC3.category) = true ∧
    ((projectPOST dbC3 (some "Bearer tok1") verifyC3 (fun _ => true) 0
        bodyC3).1.projects
      = dbC3.projects ++ [projectNewRecord dbC3 payloadC3 0 bodyC3] ∧
    (projectNewRecord dbC3 payloadC3 0 bodyC3).id = freshId dbC3.nextId ∧
    (projectNewRecord dbC3 payloadC3 0 bodyC3).status = "open" ∧
    (projectPOST dbC3 (some "Bearer tok1") verifyC3 (fun _ => true) 0
        bodyC3).2
      = (if emailSendFails dbC3.users (fun _ => true) payloadC3.userId then
           .err 500 "Internal server error"
         else .ok "Project created successfully" (freshId dbC3.nextId))) :=
  ⟨by decide, rfl, by decide,
   C3_creation_response_amended dbC3 (some "Bearer tok1") verifyC3
     (fun _ => true) 0 bodyC3 payloadC3 (by decide) rfl (by decide)⟩

/-! ## C10 -/

/-- Insertion into the date-sorted list adds no new elements. -/
theorem mem_insertByDate (p x : Project) :
    ∀ l : List Project, x ∈ insertByDate p l → x = p ∨ x ∈ l := by
  intro l
  induction l with
  | nil =>
      intro hx
      rcases List.mem_singleton.mp hx with rfl
      exact Or.inl rfl
  | cons q qs ih =>
      intro hx
      rw [insertByDate] at hx
      split at hx
      · rcases List.mem_cons.mp hx with rfl | hx2
        · exact Or.inl rfl
        · exact Or.inr hx2
      · rcases List.mem_cons.mp hx with rfl | hx2
        · exact Or.inr (List.mem_cons_self _ _)
        · rcases ih hx2 with rfl | hx3
          · exact Or.inl rfl
          · exact Or.inr (List.mem_cons_of_mem _ hx3)

/-- Sorting by date preserves membership (one direction suffices here). -/
theorem mem_sortByDateDesc (x : Project) :
    ∀ l : List Project, x ∈ sortByDateDesc l → x ∈ l := by
  intro l
  induction l with
  | nil => intro hx; exact absurd hx (List.not_mem_nil x)
  | cons p ps ih =>
      intro hx
      rw [sortByDateDesc] at hx
      rcases mem_insertByDate p x _ hx with rfl | hx2
      · exact List.mem_cons_self _ _
      · exact List.mem_cons_of_mem _ (ih hx2)

/-- C10: when the request supplies no `status` query parameter, the Mongo
filter defaults to `status ∈ {open, active}`, so every project the GET
route returns has status "open" or "active" — any other status is never
returned unless explicitly requested. -/
theorem C10_default_status_filter (db : DB) (qp : GetParams)
    (h : qp.status = none) :
    ∀ p ∈ projectsGET db qp, p.status = "open" ∨ p.status = "active" := by
  intro p hp
  unfold projectsGET at hp
  have h1 : p ∈ sortByDateDesc (db.projects.filter (matchesGetFilter qp)) :=
    List.mem_of_mem_take hp
  have h2 := mem_sortByDateDesc p _ h1
  have h3 := (List.mem_filter.mp h2).2
  unfold matchesGetFilter at h3
  rw [h] at h3
  simp only [Bool.and_eq_true, Bool.or_eq_true, beq_iff_eq] at h3
  exact h3.1.1

/-- C10 witness: a store with an open, a closed and an active project; a
parameterless GET returns only open/active ones. -/
theorem C10_witness :
    (⟨none, none, 50, none, none⟩ : GetParams).status = none ∧
    ∀ p ∈ projectsGET
        ⟨[], [],
         [⟨"p1", "A", "d", "1", none, "dl", "Construction", none, none, [],
           [], false, "open", 0, 0, "t1", "t1", "Acme", 3⟩,
          ⟨"p2", "B", "d", "1", none, "dl", "Construction", none, none, [],
           [], false, "closed", 0, 0, "t1", "t1", "Acme", 2⟩,
          ⟨"p3", "C", "d", "1", none, "dl", "Goods", none, none, [],
           [], false, "active", 0, 0, "t1", "t1", "Acme", 1⟩], 9⟩
        ⟨none, none, 50, none, none⟩,
      p.status = "open" ∨ p.status = "active" :=
  ⟨rfl, C10_default_status_filter _ _ rfl⟩

end TenderChain
